import Mathlib

/-!
Verification of the CashClip blog backend (Django REST framework app
`register`) against its design specification.

The database tables are embedded as Lean lists in insertion order: Django
appends new rows at the end of a table, and an unordered queryset
(`objects.filter` with no `order_by`) enumerates rows in that insertion
order.  Foreign keys are embedded as numeric ids.  `auto_now` timestamp
fields are passed the current clock value `now` explicitly at each save.
Request bodies are assumed to have passed DRF field validation except where
a validation rule is itself under scrutiny (comment text length ≤ 100,
`models.py` line 39, is modelled explicitly).
-/

/-- A row of the `Like` table (`register/models.py`, class `Like`):
foreign keys `user` and `post`, plus the `auto_now` field `time`. -/
structure LikeRec where
  user : Nat
  post : Nat
  time : Nat
deriving Repr, DecidableEq

/-- A row of the `Comment` table (`register/models.py`, class `Comment`):
primary key `id`, foreign keys `user` and `post`, the text field
`comment` (max_length 100) and the `auto_now` field `time`. -/
structure CommentRec where
  id : Nat
  user : Nat
  post : Nat
  comment : String
  time : Nat
deriving Repr, DecidableEq

/-- A row of the `Blog` table (`register/models.py`, class `Blog`):
primary key `id`, `title`, `description`, foreign key `author`, the
`auto_now` field `publish_date`, and the optional `image`. -/
structure BlogRec where
  id : Nat
  title : String
  description : String
  author : Nat
  publish_date : Nat
  image : Option String
deriving Repr, DecidableEq

/-- `Like.objects.filter(user=user, post=blog).exists()`
(`register/views.py` line 80 and line 125). -/
def likeExists (likes : List LikeRec) (u p : Nat) : Bool :=
  likes.any (fun l => l.user == u && l.post == p)

/-- `BlogViews.like` (`register/views.py` lines 74–89): the toggle action
`POST /api/blog/{pk}/like/`.  If a Like by the calling `user` for the
post exists it is deleted (`Like.objects.filter(user=user, post=blog)
.delete()`) and the view answers 200; otherwise one Like row is created
(`Like.objects.create(user=user, post=blog)`) and the view answers 201.
Returns the new Like table and the HTTP status. -/
def BlogViews_like (likes : List LikeRec) (user post now : Nat) :
    List LikeRec × Nat :=
  if likeExists likes user post then
    (likes.filter (fun l => !(l.user == user && l.post == post)), 200)
  else
    (likes ++ [⟨user, post, now⟩], 201)

/-- `LikeViews.create` (`register/views.py` lines 121–133), the direct
collection endpoint `POST /api/like/`.  The duplicate check uses the
calling user and the body's `post` id; on a duplicate it answers 400
without touching the table.  Otherwise `super().create` runs
`LikeViews.perform_create` (lines 117–118), which saves with
`user=self.request.user`, overriding any `user` value validated from the
request body — hence `bodyUser` is ignored by the stored row. -/
def LikeViews_create (likes : List LikeRec)
    (caller bodyUser bodyPost now : Nat) : List LikeRec × Nat :=
  if likeExists likes caller bodyPost then
    (likes, 400)
  else
    (likes ++ [⟨caller, bodyPost, now⟩], 201)

/-- The uniqueness invariant declared by `Meta: unique_together =
('user', 'post')` on `Like` (`register/models.py` line 32): no two rows
of the Like table agree on both `user` and `post`. -/
def likesUnique (likes : List LikeRec) : Prop :=
  likes.Pairwise (fun a b => ¬(a.user = b.user ∧ a.post = b.post))

/-- The two write operations on the Like table reachable through the API:
the toggle action and the direct collection create. -/
inductive LikeOp where
  | toggle (user post now : Nat)
  | directCreate (caller bodyUser bodyPost now : Nat)

/-- Applying one Like-table operation to a table state. -/
def applyLikeOp (likes : List LikeRec) : LikeOp → List LikeRec
  | .toggle u p n => (BlogViews_like likes u p n).1
  | .directCreate c bu bp n => (LikeViews_create likes c bu bp n).1

/-- Like-table states reachable from the empty table through the API's
two write operations. -/
inductive LikeReachable : List LikeRec → Prop where
  | init : LikeReachable []
  | step {s : List LikeRec} (op : LikeOp) :
      LikeReachable s → LikeReachable (applyLikeOp s op)

/-- `BlogViews.comments` (`register/views.py` lines 60–65):
`Comment.objects.filter(post=blog)` — the comments referencing the post,
in table (insertion) order. -/
def BlogViews_comments (comments : List CommentRec) (blogId : Nat) :
    List CommentRec :=
  comments.filter (fun c => c.post == blogId)

/-- `CommentViews.update` (`register/views.py` lines 100–104) on target
`id`: 404 when no such comment, 403 when the caller is not the comment's
owner; otherwise `super().update` validates the body (comment text
max_length 100) and writes every writable field of `CommentSerializer`
(`fields = "__all__"`, `register/serializers.py` lines 22–25): `user`,
`post` and `comment` come from the body, while the `auto_now` field
`time` is refreshed to the current time on save. -/
def CommentViews_update (comments : List CommentRec) (caller targetId : Nat)
    (bodyUser bodyPost : Nat) (bodyText : String) (now : Nat) :
    List CommentRec × Nat :=
  match comments.find? (fun c => c.id == targetId) with
  | none => (comments, 404)
  | some c =>
    if c.user == caller then
      if bodyText.length ≤ 100 then
        (comments.map (fun x =>
          if x.id == targetId then
            { x with user := bodyUser, post := bodyPost,
                     comment := bodyText, time := now }
          else x), 200)
      else (comments, 400)
    else (comments, 403)

/-- `CommentViews.destroy` (`register/views.py` lines 106–110) on target
`id`: 404 when no such comment, 403 when the caller is not the owner;
otherwise `super().destroy` deletes the row and answers 204 No Content. -/
def CommentViews_destroy (comments : List CommentRec)
    (caller targetId : Nat) : List CommentRec × Nat :=
  match comments.find? (fun c => c.id == targetId) with
  | none => (comments, 404)
  | some c =>
    if c.user == caller then
      (comments.filter (fun x => !(x.id == targetId)), 204)
    else (comments, 403)

/-- `CommentViews.perform_create` (`register/views.py` lines 96–97):
`serializer.save(user=self.request.user)` — the keyword argument
overrides any `user` value validated from the body, so the stored row's
`user` is the caller and `bodyUser` is ignored. -/
def CommentViews_create (comments : List CommentRec)
    (caller bodyUser bodyPost : Nat) (bodyText : String)
    (newId now : Nat) : List CommentRec :=
  comments ++ [⟨newId, caller, bodyPost, bodyText, now⟩]

/-- `BlogViews.perform_create` (`register/views.py` lines 57–58):
`serializer.save(author=self.request.user)` — the keyword argument
overrides any `author` value validated from the body, so the stored
row's `author` is the caller and `bodyAuthor` is ignored. -/
def BlogViews_create (blogs : List BlogRec) (caller bodyAuthor : Nat)
    (title description : String) (image : Option String)
    (newId now : Nat) : List BlogRec :=
  blogs ++ [⟨newId, title, description, caller, now, image⟩]

/-- A row of the user table (`register/models.py`, class `CustomUser`):
the fields the registration path touches. -/
structure UserRow where
  username : String
  phone : String
  password : String
deriving Repr, DecidableEq

/-- Modelled from the spec: Django's password hasher `make_password`
(not part of this repository), which encodes a password as
`algorithm$iterations$salt$digest`.  It is abstracted here as the
algorithm tag prefixed to the raw password; the only property used is
that its output is never the raw password itself. -/
def make_password (password : String) : String :=
  "pbkdf2_sha256$" ++ password

/-- Modelled from the spec: Django's `check_password` used by
`authenticate` (not part of this repository) — a raw password matches a
stored credential exactly when the credential is the hash of the raw
password. -/
def check_password (raw stored : String) : Bool :=
  stored == make_password raw

/-- `UserSerializer.create` (`register/serializers.py` lines 9–11):
`CustomUser.objects.create(**validate_data)` stores every validated
field verbatim — in particular the `password` field is stored exactly as
supplied, with no call to `set_password`/`make_password`. -/
def UserSerializer_create (username phone password : String) : UserRow :=
  { username := username, phone := phone, password := password }

/-- The refresh-token state shared across requests: `issued` lists
(token id, user id) pairs of refresh tokens minted by login, and
`blacklist` the ids of revoked tokens. -/
structure TokenState where
  issued : List (Nat × Nat)
  blacklist : List Nat
deriving Repr, DecidableEq

/-- `UserViews.logout` (`register/views.py` lines 38–46).  The simplejwt
calls `RefreshToken(refresh_token)` and `token.blacklist()` are not part
of this repository; they are modelled from the spec (§4.1): constructing
`RefreshToken` raises when the string is malformed (here: not an issued
token) or already blacklisted, and `blacklist()` records the token.  Any
exception is answered with 400; otherwise the view answers 200.  The
view never consults `request.user`: the `caller` argument is unused. -/
def UserViews_logout (st : TokenState) (caller tok : Nat) :
    TokenState × Nat :=
  if st.issued.any (fun p => p.1 == tok) then
    if st.blacklist.contains tok then
      (st, 400)
    else
      ({ st with blacklist := tok :: st.blacklist }, 200)
  else
    (st, 400)

/-! ## Theorems -/

/-- C1: For every authenticated caller and every existing post, the
toggle-like operation removes the caller's Like and returns status 200
when a Like for (caller, post) already exists — afterwards no Like for
the pair remains, every other Like survives, and the surviving rows keep
their order — and otherwise creates exactly one Like for (caller, post)
and returns status 201. -/
theorem toggle_like_correct (likes : List LikeRec) (u p now : Nat) :
    (likeExists likes u p = true →
      (BlogViews_like likes u p now).2 = 200 ∧
      (∀ l ∈ (BlogViews_like likes u p now).1, ¬(l.user = u ∧ l.post = p)) ∧
      (∀ l ∈ likes, ¬(l.user = u ∧ l.post = p) →
        l ∈ (BlogViews_like likes u p now).1) ∧
      (BlogViews_like likes u p now).1.Sublist likes) ∧
    (likeExists likes u p = false →
      (BlogViews_like likes u p now).2 = 201 ∧
      (BlogViews_like likes u p now).1 = likes ++ [⟨u, p, now⟩]) := by
  constructor
  · intro h
    have hres : BlogViews_like likes u p now =
        (likes.filter (fun l => !(l.user == u && l.post == p)), 200) := by
      simp [BlogViews_like, h]
    rw [hres]
    refine ⟨rfl, ?_, ?_, List.filter_sublist likes⟩
    · intro l hl
      have hcond := (List.mem_filter.mp hl).2
      simp only [Bool.not_eq_true', Bool.and_eq_false_imp, beq_iff_eq]
        at hcond
      intro hc
      exact absurd hc.2 (by simpa using hcond hc.1)
    · intro l hl hne
      refine List.mem_filter.mpr ⟨hl, ?_⟩
      simp only [Bool.not_eq_true', Bool.and_eq_false_imp, beq_iff_eq]
      intro hu
      simpa using fun hp => hne ⟨hu, hp⟩
  · intro h
    have hres : BlogViews_like likes u p now =
        (likes ++ [⟨u, p, now⟩], 201) := by
      simp [BlogViews_like, h]
    rw [hres]
    exact ⟨rfl, rfl⟩

/-- Witness for C1: both branches at concrete inputs. -/
theorem toggle_like_correct_witness :
    (BlogViews_like [⟨1, 2, 0⟩] 1 2 5).2 = 200 ∧
    (BlogViews_like [] 1 2 5).2 = 201 :=
  ⟨((toggle_like_correct [⟨1, 2, 0⟩] 1 2 5).1 (by decide)).1,
   ((toggle_like_correct [] 1 2 5).2 (by decide)).1⟩

/-- C3: For every authenticated caller and every post, if a Like for
(caller, post) already exists, the direct collection endpoint returns
status 400 and leaves the Like table unchanged, whatever the body's
`user` field says. -/
theorem direct_like_create_duplicate (likes : List LikeRec)
    (caller bodyUser bodyPost now : Nat)
    (h : likeExists likes caller bodyPost = true) :
    LikeViews_create likes caller bodyUser bodyPost now = (likes, 400) := by
  simp only [LikeViews_create, h, if_true]

/-- Witness for C3: a duplicate direct create at a concrete state. -/
theorem direct_like_create_duplicate_witness :
    LikeViews_create [⟨1, 2, 0⟩] 1 9 2 7 = ([⟨1, 2, 0⟩], 400) :=
  direct_like_create_duplicate [⟨1, 2, 0⟩] 1 9 2 7 (by decide)

/-- C9: From a state where the user does not like the post, toggling
twice returns the Like table exactly to its initial state. -/
theorem toggle_twice_identity (likes : List LikeRec) (u p n₁ n₂ : Nat)
    (h : likeExists likes u p = false) :
    (BlogViews_like (BlogViews_like likes u p n₁).1 u p n₂).1 = likes := by
  have h1 : (BlogViews_like likes u p n₁).1 = likes ++ [⟨u, p, n₁⟩] := by
    simp only [BlogViews_like, h, Bool.false_eq_true, if_false]
  have h2 : likeExists (likes ++ [⟨u, p, n₁⟩]) u p = true := by
    simp [likeExists]
  rw [h1]
  simp only [BlogViews_like, h2, if_true, List.filter_append]
  have h3 : likes.filter (fun l => !(l.user == u && l.post == p)) = likes := by
    rw [List.filter_eq_self]
    intro a ha
    have hna := List.any_eq_false.mp h a ha
    simp only [beq_iff_eq, Bool.and_eq_true, not_and] at hna
    by_cases hu : a.user = u
    · simp [hu, hna hu]
    · simp [hu]
  rw [h3]
  simp

/-- Witness for C9: double toggle at a concrete state. -/
theorem toggle_twice_identity_witness :
    (BlogViews_like (BlogViews_like [⟨3, 4, 0⟩] 1 2 5).1 1 2 6).1 =
      [⟨3, 4, 0⟩] :=
  toggle_twice_identity [⟨3, 4, 0⟩] 1 2 5 6 (by decide)

/-- Deleting rows (a sublist) preserves the Like uniqueness invariant. -/
theorem likesUnique_of_sublist {l₁ l₂ : List LikeRec} (hs : l₁.Sublist l₂)
    (h : likesUnique l₂) : likesUnique l₁ :=
  List.Pairwise.sublist hs h

/-- Appending a row whose (user, post) pair is absent preserves the Like
uniqueness invariant. -/
theorem likesUnique_append (likes : List LikeRec) (x : LikeRec)
    (h : likesUnique likes) (hx : likeExists likes x.user x.post = false) :
    likesUnique (likes ++ [x]) := by
  unfold likesUnique at h ⊢
  rw [List.pairwise_append]
  refine ⟨h, List.pairwise_singleton _ _, ?_⟩
  intro a ha b hb
  have hb1 : b = x := by simpa using hb
  subst hb1
  have hna := List.any_eq_false.mp hx a ha
  simp only [beq_iff_eq, Bool.and_eq_true, not_and] at hna
  exact fun hc => hna hc.1 hc.2

/-- C2: every write operation on the Like table (toggle-like and direct
Like creation) preserves the at-most-one-Like-per-(user, post)
invariant, and every table state reachable from the empty table through
those operations satisfies it. -/
theorem like_uniqueness_invariant :
    (∀ s op, likesUnique s → likesUnique (applyLikeOp s op)) ∧
    (∀ s, LikeReachable s → likesUnique s) := by
  have hpres : ∀ s op, likesUnique s → likesUnique (applyLikeOp s op) := by
    intro s op h
    cases op with
    | toggle u p n =>
      cases hx : likeExists s u p with
      | true =>
        have hres : applyLikeOp s (LikeOp.toggle u p n) =
            s.filter (fun l => !(l.user == u && l.post == p)) := by
          simp [applyLikeOp, BlogViews_like, hx]
        rw [hres]
        exact likesUnique_of_sublist (List.filter_sublist s) h
      | false =>
        have hres : applyLikeOp s (LikeOp.toggle u p n) =
            s ++ [⟨u, p, n⟩] := by
          simp [applyLikeOp, BlogViews_like, hx]
        rw [hres]
        exact likesUnique_append s ⟨u, p, n⟩ h hx
    | directCreate c bu bp n =>
      cases hx : likeExists s c bp with
      | true =>
        have hres : applyLikeOp s (LikeOp.directCreate c bu bp n) = s := by
          simp [applyLikeOp, LikeViews_create, hx]
        rw [hres]
        exact h
      | false =>
        have hres : applyLikeOp s (LikeOp.directCreate c bu bp n) =
            s ++ [⟨c, bp, n⟩] := by
          simp [applyLikeOp, LikeViews_create, hx]
        rw [hres]
        exact likesUnique_append s ⟨c, bp, n⟩ h hx
  refine ⟨hpres, ?_⟩
  intro s hr
  induction hr with
  | init => exact List.Pairwise.nil
  | step op _ ih => exact hpres _ op ih

/-- Witness for C2: the invariant holds at a concrete reachable state. -/
theorem like_uniqueness_invariant_witness :
    likesUnique (applyLikeOp [] (LikeOp.toggle 1 2 0)) :=
  like_uniqueness_invariant.2 _
    (LikeReachable.step (LikeOp.toggle 1 2 0) LikeReachable.init)

/-- C4: For every authenticated caller and every existing comment, a
comment update or delete succeeds (200 / 204 No Content) when the caller
equals the comment's owner, and returns status 403 with the comment
table unchanged when the caller is not the owner. -/
theorem comment_owner_authorization (comments : List CommentRec)
    (caller targetId bodyUser bodyPost : Nat) (bodyText : String)
    (now : Nat) (c : CommentRec)
    (hfind : comments.find? (fun x => x.id == targetId) = some c) :
    (c.user = caller → bodyText.length ≤ 100 →
      (CommentViews_update comments caller targetId bodyUser bodyPost
          bodyText now).2 = 200 ∧
      (CommentViews_destroy comments caller targetId).2 = 204) ∧
    (c.user ≠ caller →
      CommentViews_update comments caller targetId bodyUser bodyPost
          bodyText now = (comments, 403) ∧
      CommentViews_destroy comments caller targetId = (comments, 403)) := by
  have h1 : CommentViews_update comments caller targetId bodyUser bodyPost
      bodyText now =
      if c.user == caller then
        if bodyText.length ≤ 100 then
          (comments.map (fun x =>
            if x.id == targetId then
              { x with user := bodyUser, post := bodyPost,
                       comment := bodyText, time := now }
            else x), 200)
        else (comments, 400)
      else (comments, 403) := by
    unfold CommentViews_update
    rw [hfind]
  have h2 : CommentViews_destroy comments caller targetId =
      if c.user == caller then
        (comments.filter (fun x => !(x.id == targetId)), 204)
      else (comments, 403) := by
    unfold CommentViews_destroy
    rw [hfind]
  constructor
  · intro howner hlen
    rw [h1, h2]
    simp [howner, hlen]
  · intro hne
    have hbeq : (c.user == caller) = false := by simpa using hne
    rw [h1, h2]
    simp [hbeq]

/-- Witness for C4: owner update answers 200; non-owner delete answers
403 and keeps the table. -/
theorem comment_owner_authorization_witness :
    (CommentViews_update [⟨1, 5, 10, "a", 0⟩] 5 1 5 10 "b" 2).2 = 200 ∧
    CommentViews_destroy [⟨1, 5, 10, "a", 0⟩] 6 1 =
      ([⟨1, 5, 10, "a", 0⟩], 403) :=
  ⟨((comment_owner_authorization [⟨1, 5, 10, "a", 0⟩] 5 1 5 10 "b" 2
      ⟨1, 5, 10, "a", 0⟩ rfl).1 rfl (by decide)).1,
   ((comment_owner_authorization [⟨1, 5, 10, "a", 0⟩] 6 1 5 10 "b" 2
      ⟨1, 5, 10, "a", 0⟩ rfl).2 (by decide)).2⟩

/-- Counterexample for C6: the owner of comment 1 (user 5) issues an
update whose body keeps the text but names post 11 instead of 10; the
view answers 200 and the stored comment's `post` has changed (and its
`time` moved from 0 to the save clock 3) — `user`, `post` and `time` are
not read-only under `CommentSerializer` with `fields = "__all__"`. -/
theorem comment_update_mutates_readonly_fields :
    (CommentViews_update [⟨1, 5, 10, "hi", 0⟩] 5 1 5 11 "hi" 3).2 = 200 ∧
    (CommentViews_update [⟨1, 5, 10, "hi", 0⟩] 5 1 5 11 "hi" 3).1 =
      [⟨1, 5, 11, "hi", 3⟩] := by
  exact ⟨rfl, rfl⟩

/-- C6 (amended): an owner's update with a valid body returns 200 and
overwrites the comment's `user`, `post` and text with the request-body
values while refreshing the `auto_now` timestamp; only the comment's id
is preserved, and all other rows of the table are untouched. -/
theorem comment_update_owner_effect (comments : List CommentRec)
    (caller targetId bodyUser bodyPost : Nat) (bodyText : String)
    (now : Nat) (c : CommentRec)
    (hfind : comments.find? (fun x => x.id == targetId) = some c)
    (howner : c.user = caller) (hlen : bodyText.length ≤ 100) :
    (CommentViews_update comments caller targetId bodyUser bodyPost
        bodyText now).2 = 200 ∧
    (CommentViews_update comments caller targetId bodyUser bodyPost
        bodyText now).1.length = comments.length ∧
    (∀ (i : Nat) (x : CommentRec), comments[i]? = some x →
      (CommentViews_update comments caller targetId bodyUser bodyPost
          bodyText now).1[i]? =
        some (if x.id = targetId then
                (⟨targetId, bodyUser, bodyPost, bodyText, now⟩ : CommentRec)
              else x)) := by
  have h1 : CommentViews_update comments caller targetId bodyUser bodyPost
      bodyText now =
      (comments.map (fun x =>
        if x.id == targetId then
          { x with user := bodyUser, post := bodyPost,
                   comment := bodyText, time := now }
        else x), 200) := by
    unfold CommentViews_update
    rw [hfind]
    simp [howner, hlen]
  refine ⟨by rw [h1], by rw [h1]; simp, ?_⟩
  intro i x hx
  simp only [h1, List.getElem?_map, hx]
  by_cases hid : x.id = targetId
  · simp [hid]
  · simp [hid]

/-- Witness for C6 (amended): a concrete owner update. -/
theorem comment_update_owner_effect_witness :
    (CommentViews_update [⟨1, 5, 10, "hi", 0⟩] 5 1 7 11 "yo" 3).2 = 200 :=
  (comment_update_owner_effect [⟨1, 5, 10, "hi", 0⟩] 5 1 7 11 "yo" 3
    ⟨1, 5, 10, "hi", 0⟩ rfl rfl (by decide)).1

/-- C7: listing a post's comments yields exactly the comments whose
`post` foreign key is that post — same membership, same multiplicities —
and in table (insertion) order: the result is a sublist of the table. -/
theorem list_comments_exact (comments : List CommentRec) (blogId : Nat) :
    (∀ c, c ∈ BlogViews_comments comments blogId ↔
      (c ∈ comments ∧ c.post = blogId)) ∧
    (∀ c, (BlogViews_comments comments blogId).count c =
      if c.post = blogId then comments.count c else 0) ∧
    (BlogViews_comments comments blogId).Sublist comments := by
  refine ⟨?_, ?_, List.filter_sublist comments⟩
  · intro c
    simp [BlogViews_comments, List.mem_filter]
  · intro c
    by_cases hc : c.post = blogId
    · rw [if_pos hc]
      exact List.count_filter (by simp [hc])
    · rw [if_neg hc]
      rw [List.count_eq_zero]
      intro hmem
      exact hc (by simpa [BlogViews_comments] using
        (List.mem_filter.mp hmem).2)

/-- Witness for C7: a matching comment is listed for its post. -/
theorem list_comments_exact_witness :
    (⟨2, 7, 10, "x", 0⟩ : CommentRec) ∈
      BlogViews_comments [⟨1, 5, 9, "a", 0⟩, ⟨2, 7, 10, "x", 0⟩] 10 :=
  ((list_comments_exact [⟨1, 5, 9, "a", 0⟩, ⟨2, 7, 10, "x", 0⟩] 10).1
    ⟨2, 7, 10, "x", 0⟩).mpr ⟨by decide, rfl⟩

/-- C5 (code bug): registration via `UserSerializer.create` stores the
supplied password verbatim — not its hash — so the stored credential at
a concrete registration equals the plaintext, differs from what the
hasher would have produced, and would make the credential check used by
login fail for the very password that was registered. -/
theorem register_stores_plaintext :
    (UserSerializer_create "alice" "1234567890" "pw123").password =
      "pw123" ∧
    make_password "pw123" ≠ "pw123" ∧
    check_password "pw123"
      (UserSerializer_create "alice" "1234567890" "pw123").password =
      false := by
  exact ⟨rfl, by decide, by decide⟩

/-- C8: the three create paths store the caller as the owner of the new
row, and the stored tables do not depend on any owner value supplied in
the request body: every row of the post-state is either a pre-existing
row or has the caller as its owner. -/
theorem create_owner_is_caller
    (blogs : List BlogRec) (comments : List CommentRec)
    (likes : List LikeRec) (caller a₁ a₂ bu₁ bu₂ lu₁ lu₂ : Nat)
    (title description bodyText : String) (image : Option String)
    (cPost lPost nid cid now : Nat) :
    (BlogViews_create blogs caller a₁ title description image nid now =
      BlogViews_create blogs caller a₂ title description image nid now) ∧
    (∀ b ∈ BlogViews_create blogs caller a₁ title description image nid now,
      b ∈ blogs ∨ b.author = caller) ∧
    (CommentViews_create comments caller bu₁ cPost bodyText cid now =
      CommentViews_create comments caller bu₂ cPost bodyText cid now) ∧
    (∀ c ∈ CommentViews_create comments caller bu₁ cPost bodyText cid now,
      c ∈ comments ∨ c.user = caller) ∧
    (LikeViews_create likes caller lu₁ lPost now =
      LikeViews_create likes caller lu₂ lPost now) ∧
    (∀ l ∈ (LikeViews_create likes caller lu₁ lPost now).1,
      l ∈ likes ∨ l.user = caller) := by
  refine ⟨rfl, ?_, rfl, ?_, rfl, ?_⟩
  · intro b hb
    rcases List.mem_append.mp hb with h | h
    · exact Or.inl h
    · right
      have hb1 : b = ⟨nid, title, description, caller, now, image⟩ := by
        simpa using h
      rw [hb1]
  · intro c hc
    rcases List.mem_append.mp hc with h | h
    · exact Or.inl h
    · right
      have hc1 : c = ⟨cid, caller, cPost, bodyText, now⟩ := by
        simpa using h
      rw [hc1]
  · intro l hl
    cases hx : likeExists likes caller lPost with
    | true =>
      have hres : (LikeViews_create likes caller lu₁ lPost now).1 =
          likes := by
        simp [LikeViews_create, hx]
      rw [hres] at hl
      exact Or.inl hl
    | false =>
      have hres : (LikeViews_create likes caller lu₁ lPost now).1 =
          likes ++ [⟨caller, lPost, now⟩] := by
        simp [LikeViews_create, hx]
      rw [hres] at hl
      rcases List.mem_append.mp hl with h | h
      · exact Or.inl h
      · right
        have hl1 : l = ⟨caller, lPost, now⟩ := by simpa using h
        rw [hl1]

/-- Witness for C8: the freshly created post of a concrete create is
owned by the caller even though the body named another author. -/
theorem create_owner_is_caller_witness :
    (⟨0, "t", "d", 7, 1, none⟩ : BlogRec) ∈ ([] : List BlogRec) ∨
      (⟨0, "t", "d", 7, 1, none⟩ : BlogRec).author = 7 :=
  (create_owner_is_caller [] [] [] 7 9 8 9 8 9 8 "t" "d" "x" none
    0 0 0 0 1).2.1 ⟨0, "t", "d", 7, 1, none⟩ (by decide)

/-- C10: logout blacklists whatever issued, not-yet-blacklisted refresh
token the body supplies and answers 200, for every caller — including
one distinct from the user the token was issued to — and its outcome
does not depend on the caller at all. -/
theorem logout_ignores_caller (st : TokenState) (caller tok uid : Nat)
    (hiss : (tok, uid) ∈ st.issued) (hbl : tok ∉ st.blacklist) :
    (UserViews_logout st caller tok).2 = 200 ∧
    tok ∈ (UserViews_logout st caller tok).1.blacklist ∧
    (∀ c₁ c₂, UserViews_logout st c₁ tok = UserViews_logout st c₂ tok) := by
  have hany : st.issued.any (fun p => p.1 == tok) = true :=
    List.any_eq_true.mpr ⟨(tok, uid), hiss, by simp⟩
  have hcon : st.blacklist.contains tok = false := by
    rw [show st.blacklist.contains tok = decide (tok ∈ st.blacklist) from
      List.elem_eq_mem tok st.blacklist]
    exact decide_eq_false hbl
  have hres : UserViews_logout st caller tok =
      ({ st with blacklist := tok :: st.blacklist }, 200) := by
    simp [UserViews_logout, hany, hcon, hbl]
  rw [hres]
  exact ⟨rfl, by simp, fun c₁ c₂ => rfl⟩

/-- Witness for C10: caller 1 successfully blacklists a token issued to
user 2. -/
theorem logout_ignores_caller_witness :
    (UserViews_logout ⟨[(5, 2)], []⟩ 1 5).2 = 200 :=
  (logout_ignores_caller ⟨[(5, 2)], []⟩ 1 5 2 (by decide) (by decide)).1
